import Mathlib

/-!
Verification of the `mgis130-bi-dashboard` serverless endpoints.

The repository has two source files:
  * `api/stocks.js` (reproduced in the README): `fetchStockPrice` and the
    stocks aggregation handler;
  * `api/transcripts.js`: `fetchEarningsTranscript` and the single-item
    transcripts handler.

The embedding below models each JavaScript function as a total Lean
function.  Upstream HTTP behaviour is a parameter (a value of `Upstream`):
either the `fetch` promise rejects (`netErr`), or an HTTP response arrives
with an `ok` flag, a status, a status text and a body, where the body is
either a JSON-parse failure (`response.json()` throwing) or a parsed value.
JavaScript truthiness of optional string values (`!apiKey`, `!ticker`,
`!data.transcript`, `!COMPANIES[t]`) is modelled by `truthyOpt`: absent
(`none`) and the empty string are falsy, every other string is truthy.
An unexpected exception inside a handler's `try` block is modelled by an
explicit `exn : Option String` parameter: `some m` means an exception with
message `m` is raised at the top of the `try` body and control reaches the
`catch` clause.  Each handler output records the HTTP status, the JSON
body (as a structured sum type) and the list of tickers the upstream
client function was invoked with (`calls`), so that "no upstream call is
attempted" is expressible.
-/

/-- JavaScript truthiness of a possibly-absent string value:
`undefined`/`null` (here `none`) and the empty string are falsy. -/
def truthyOpt : Option String → Bool
  | none => false
  | some s => !s.isEmpty

/-- JavaScript `s.toUpperCase()`: character-wise uppercasing of the string (ASCII
letters, via `Char.toUpper`), modelled on the string's character list so
that it is kernel-computable. -/
def jsToUpperCase (s : String) : String :=
  String.mk (s.data.map Char.toUpper)

theorem truthyOpt_none : truthyOpt none = false := rfl

theorem truthyOpt_some_empty : truthyOpt (some "") = false := rfl

theorem truthyOpt_some_of_ne {t : String} (ht : t ≠ "") :
    truthyOpt (some t) = true := by
  have hE : t.isEmpty = false := by
    cases hE : t.isEmpty
    · rfl
    · exact absurd ((String.isEmpty_iff t).mp hE) ht
  simp [truthyOpt, hE]

/-- Outcome of one upstream `fetch`: a network error (the promise rejects
with an error whose message is `msg`), or an HTTP response with `ok` flag,
numeric status, status text, and a body that is either a JSON parse error
(`response.json()` throws, message carried) or a parsed value of type `β`. -/
inductive Upstream (β : Type) where
  | netErr (msg : String)
  | http (ok : Bool) (status : Nat) (statusText : String) (body : Except String β)

/-- A possibly-absent JSON field whose expected type is a number:
absent, present but not a number, or a number (modelled as `Int`). -/
inductive NumField where
  | missing
  | notNum
  | num (v : Int)
  deriving DecidableEq

namespace Stocks

/-- Source: `const COMPANIES = ...` from `api/stocks.js` (ticker to company
name mapping). -/
def COMPANIES : List (String × String) :=
  [("AAPL", "Apple Inc."),
   ("MSFT", "Microsoft Corporation"),
   ("GOOGL", "Alphabet Inc. (Google)"),
   ("META", "Meta Platforms Inc."),
   ("AMZN", "Amazon.com Inc.")]

/-- Property lookup `COMPANIES[t]` on the mapping object. -/
def companyOf (t : String) : Option String :=
  (COMPANIES.find? (fun p => p.1 = t)).map Prod.snd

/-- Source: `Object.keys(COMPANIES)` — the fixed ticker set, in declaration order. -/
def tickers : List String := COMPANIES.map Prod.fst

/-- Parsed JSON body of the stock-price endpoint.  Only the `price` field is
inspected by the code. -/
structure StockBody where
  price : NumField
  deriving DecidableEq

/-- The value returned by `fetchStockPrice`: on success,
`{ ticker, companyName, price, success: true }`; on failure,
`{ ticker, companyName, price: null, success: false, error }`.
The absent `error` key of the success record is `none`. -/
structure PriceResult where
  ticker : String
  companyName : Option String
  price : Option Int
  success : Bool
  error : Option String
  deriving DecidableEq

/-- The catch-branch record of `fetchStockPrice`. -/
def failResult (ticker msg : String) : PriceResult :=
  { ticker := ticker, companyName := companyOf ticker,
    price := none, success := false, error := some msg }

/-- Source: `fetchStockPrice(ticker, apiKey)` from `api/stocks.js`, with the network
interaction abstracted into the `u : Upstream (Option StockBody)` argument
(`none` body models `response.json()` returning a falsy value such as
`null`, rejected by the `!data` check). -/
def fetchStockPrice (ticker : String) (u : Upstream (Option StockBody)) : PriceResult :=
  match u with
  | .netErr msg => failResult ticker msg
  | .http ok status statusText body =>
    if !ok then
      failResult ticker
        ("API request failed for " ++ ticker ++ ": " ++ toString status ++ " " ++ statusText)
    else
      match body with
      | .error msg => failResult ticker msg
      | .ok data =>
        match data with
        | none => failResult ticker ("Invalid data received for " ++ ticker)
        | some d =>
          match d.price with
          | .num p =>
            { ticker := ticker, companyName := companyOf ticker,
              price := some p, success := true, error := none }
          | _ => failResult ticker ("Invalid data received for " ++ ticker)

/-- One element of the `stocks` array of a 200 response. -/
structure StockEntry where
  ticker : String
  companyName : Option String
  price : Option Int
  deriving DecidableEq

/-- The `metadata` object of a 200 response. -/
structure Metadata where
  total : Nat
  successful : Nat
  failed : Nat
  deriving DecidableEq

/-- One element of the `warnings` array of a partial-failure 200 response. -/
structure WarningEntry where
  ticker : String
  companyName : Option String
  message : String
  deriving DecidableEq

/-- The JSON body emitted by the stocks handler, one constructor per
`res.status(...).json(...)` (or `.end()`) site. -/
inductive Body where
  | empty
  | methodNotAllowed (error message : String)
  | configError (error message : String)
  | serviceUnavailable (error message : String) (details : List (String × Option String))
  | okBody (timestamp : String) (stocks : List StockEntry) (metadata : Metadata)
      (warnings : Option (List WarningEntry))
  | internalError (error message details : String)
  deriving DecidableEq

/-- A handler invocation's observable outcome: HTTP status, JSON body, and
the list of tickers `fetchStockPrice` was invoked with. -/
structure Out where
  status : Nat
  body : Body
  calls : List String
  deriving DecidableEq

/-- Source: `const results = await Promise.all(...)` — the settled per-ticker
results, in ticker order (`Promise.all` preserves the order of its input
array of `tickers.map(...)` promises). -/
def results (up : String → Upstream (Option StockBody)) : List PriceResult :=
  tickers.map (fun t => fetchStockPrice t (up t))

/-- Source: `const successfulResults = results.filter(r => r.success)`. -/
def successfulResults (up : String → Upstream (Option StockBody)) : List PriceResult :=
  (results up).filter (fun r => r.success)

/-- Source: `const failedResults = results.filter(r => !r.success)`. -/
def failedResults (up : String → Upstream (Option StockBody)) : List PriceResult :=
  (results up).filter (fun r => !r.success)

/-- The stocks `handler(req, res)`.  `method` is `req.method`, `apiKey` is
`process.env.API_KEY` (absent = `none`), `now` is `new Date().toISOString()`,
`up` gives each ticker's upstream outcome, and `exn` injects an unexpected
exception into the `try` block (see module comment). -/
def handler (method : String) (apiKey : Option String) (now : String)
    (up : String → Upstream (Option StockBody)) (exn : Option String) : Out :=
  if method = "OPTIONS" then ⟨200, .empty, []⟩
  else if method ≠ "GET" then
    ⟨405, .methodNotAllowed "Method not allowed" "Only GET requests are supported", []⟩
  else
    match exn with
    | some m =>
      ⟨500, .internalError "Internal server error"
        "An unexpected error occurred while fetching stock data" m, []⟩
    | none =>
      if !truthyOpt apiKey then
        ⟨500, .configError "Server configuration error"
          "API key not configured. Please set API_KEY environment variable.", []⟩
      else
        if (successfulResults up).length = 0 then
          ⟨503, .serviceUnavailable "Service unavailable"
            "Unable to fetch stock data from API"
            ((failedResults up).map (fun r => (r.ticker, r.error))), tickers⟩
        else
          ⟨200, .okBody now
            ((successfulResults up).map (fun r => ⟨r.ticker, r.companyName, r.price⟩))
            ⟨tickers.length, (successfulResults up).length, (failedResults up).length⟩
            (if (failedResults up).length > 0 then
              some ((failedResults up).map (fun r => ⟨r.ticker, r.companyName, "Failed to fetch data"⟩))
            else none), tickers⟩

/-- Projection: the `stocks` array of a 200 body, when present. -/
def Body.stocksOf : Body → Option (List StockEntry)
  | .okBody _ s _ _ => some s
  | _ => none

/-- Projection: the `metadata` object of a 200 body, when present. -/
def Body.metaOf : Body → Option Metadata
  | .okBody _ _ m _ => some m
  | _ => none

/-- Projection: the `warnings` array of a 200 body (`none` when the body is
not a 200 body or the `warnings` key is absent). -/
def Body.warningsOf : Body → Option (List WarningEntry)
  | .okBody _ _ _ w => w
  | _ => none

/-- Projection: the `details` array of a 503 body, when present. -/
def Body.detailsOf : Body → Option (List (String × Option String))
  | .serviceUnavailable _ _ d => some d
  | _ => none

end Stocks

namespace Transcripts

/-- Source: `const COMPANIES = ...` from `api/transcripts.js` (same mapping as
the stocks file, declared independently there). -/
def COMPANIES : List (String × String) :=
  [("AAPL", "Apple Inc."),
   ("MSFT", "Microsoft Corporation"),
   ("GOOGL", "Alphabet Inc. (Google)"),
   ("META", "Meta Platforms Inc."),
   ("AMZN", "Amazon.com Inc.")]

/-- Property lookup `COMPANIES[t]` on the mapping object. -/
def companyOf (t : String) : Option String :=
  (COMPANIES.find? (fun p => p.1 = t)).map Prod.snd

/-- Source: `Object.keys(COMPANIES)` — the static allow-list, in declaration order. -/
def tickers : List String := COMPANIES.map Prod.fst

/-- Parsed JSON body of the transcript endpoint.  Fields the code copies
into its result; absent fields are `none`.  `transcript` is subject to the
truthiness check `!data.transcript`, so an empty string there is rejected. -/
structure TranscriptBody where
  date : Option String
  timestamp : Option Int
  year : Option Int
  quarter : Option Int
  earnings_timing : Option String
  transcript : Option String
  participants : Option (List String)
  transcript_split : Option (List String)
  deriving DecidableEq

/-- The value returned by `fetchEarningsTranscript`: the success record has
all transcript fields and `success: true`; the catch-branch record has only
`ticker`, `companyName`, `success: false` and `error` (absent fields are
`none`). -/
structure TranscriptResult where
  ticker : String
  companyName : Option String
  date : Option String
  timestamp : Option Int
  year : Option Int
  quarter : Option Int
  earningsTiming : Option String
  transcript : Option String
  participants : Option (List String)
  transcriptSplit : Option (List String)
  success : Bool
  error : Option String
  deriving DecidableEq

/-- The catch-branch record of `fetchEarningsTranscript`. -/
def tFailResult (ticker msg : String) : TranscriptResult :=
  { ticker := ticker, companyName := companyOf ticker,
    date := none, timestamp := none, year := none, quarter := none,
    earningsTiming := none, transcript := none, participants := none,
    transcriptSplit := none, success := false, error := some msg }

/-- Source: `fetchEarningsTranscript(ticker, apiKey)` from `api/transcripts.js`,
with the network interaction abstracted into `u` (as for the stock client,
a `none` parsed body models `response.json()` returning a falsy value,
rejected by the `!data` check). -/
def fetchEarningsTranscript (ticker : String)
    (u : Upstream (Option TranscriptBody)) : TranscriptResult :=
  match u with
  | .netErr msg => tFailResult ticker msg
  | .http ok status statusText body =>
    if !ok then
      tFailResult ticker
        ("API request failed for " ++ ticker ++ ": " ++ toString status ++ " " ++ statusText)
    else
      match body with
      | .error msg => tFailResult ticker msg
      | .ok data =>
        match data with
        | none => tFailResult ticker ("No transcript data available for " ++ ticker)
        | some d =>
          if !truthyOpt d.transcript then
            tFailResult ticker ("No transcript data available for " ++ ticker)
          else
            { ticker := ticker, companyName := companyOf ticker,
              date := d.date, timestamp := d.timestamp, year := d.year,
              quarter := d.quarter, earningsTiming := d.earnings_timing,
              transcript := d.transcript,
              participants := some (d.participants.getD []),
              transcriptSplit := some (d.transcript_split.getD []),
              success := true, error := none }

/-- The `data` object of a successful transcripts response. -/
structure DataEntry where
  ticker : String
  companyName : Option String
  date : Option String
  timestamp : Option Int
  year : Option Int
  quarter : Option Int
  earningsTiming : Option String
  transcript : Option String
  participants : Option (List String)
  transcriptSplit : Option (List String)
  deriving DecidableEq

/-- The JSON body emitted by the transcripts handler, one constructor per
`res.status(...).json(...)` (or `.end()`) site. -/
inductive Body where
  | empty
  | methodNotAllowed (error message : String)
  | configError (error message : String)
  | discovery (message : String) (availableTickers : List String) (exampleUrl : String)
  | invalidTicker (error message : String) (availableTickers : List String)
  | serviceUnavailable (error message : String) (details : Option String)
  | okData (success : Bool) (data : DataEntry)
  | internalError (error message details : String)
  deriving DecidableEq

/-- A handler invocation's observable outcome: HTTP status, JSON body, and
the list of tickers `fetchEarningsTranscript` was invoked with. -/
structure Out where
  status : Nat
  body : Body
  calls : List String
  deriving DecidableEq

/-- The transcripts `handler(req, res)`.  `method` is `req.method`, `apiKey`
is `process.env.API_KEY`, `tickerQ` is `req.query.ticker` (absent = `none`),
`up` gives the upstream outcome for the ticker actually requested, and
`exn` injects an unexpected exception into the `try` block. -/
def handler (method : String) (apiKey : Option String) (tickerQ : Option String)
    (up : String → Upstream (Option TranscriptBody)) (exn : Option String) : Out :=
  if method = "OPTIONS" then ⟨200, .empty, []⟩
  else if method ≠ "GET" then
    ⟨405, .methodNotAllowed "Method not allowed" "Only GET requests are supported", []⟩
  else
    match exn with
    | some m =>
      ⟨500, .internalError "Internal server error"
        "An unexpected error occurred while fetching transcript data" m, []⟩
    | none =>
      if !truthyOpt apiKey then
        ⟨500, .configError "Server configuration error"
          "API key not configured. Please set API_KEY environment variable.", []⟩
      else if !truthyOpt tickerQ then
        ⟨200, .discovery "Provide a ticker parameter to fetch transcript"
          tickers "/api/transcripts?ticker=MSFT", []⟩
      else
        let ticker := tickerQ.getD ""
        let upperTicker := jsToUpperCase ticker
        if !truthyOpt (companyOf upperTicker) then
          ⟨400, .invalidTicker "Invalid ticker"
            ("Ticker '" ++ ticker ++ "' is not supported") tickers, []⟩
        else
          let result := fetchEarningsTranscript upperTicker (up upperTicker)
          if !result.success then
            ⟨503, .serviceUnavailable "Service unavailable"
              ("Unable to fetch transcript for " ++ upperTicker) result.error, [upperTicker]⟩
          else
            ⟨200, .okData true
              ⟨result.ticker, result.companyName, result.date, result.timestamp,
               result.year, result.quarter, result.earningsTiming, result.transcript,
               result.participants, result.transcriptSplit⟩, [upperTicker]⟩

end Transcripts

/-! ### Helper lemmas -/

theorem length_filter_add_length_filter_not {α : Type} (p : α → Bool) (l : List α) :
    (l.filter p).length + (l.filter (fun x => !p x)).length = l.length := by
  induction l with
  | nil => rfl
  | cons a l ih => cases hp : p a <;> simp [List.filter_cons, hp] <;> omega

theorem filter_not_eq_self_of_filter_eq_nil {α : Type} (p : α → Bool) (l : List α)
    (h : l.filter p = []) : l.filter (fun x => !p x) = l := by
  induction l with
  | nil => rfl
  | cons a l ih =>
    cases hp : p a
    · simp only [List.filter_cons, hp] at h
      simp [List.filter_cons, hp, ih h]
    · simp [List.filter_cons, hp] at h

theorem Stocks.fetchStockPrice_ticker (t : String) (u : Upstream (Option Stocks.StockBody)) :
    (Stocks.fetchStockPrice t u).ticker = t := by
  rcases u with m | ⟨ok, s, st, b⟩
  · rfl
  · cases ok
    · rfl
    · rcases b with m | d
      · rfl
      · rcases d with _ | ⟨⟨p⟩⟩
        · rfl
        · cases p <;> rfl

theorem Stocks.results_map_ticker (up : String → Upstream (Option Stocks.StockBody)) :
    (Stocks.results up).map (fun r => r.ticker) = Stocks.tickers := by
  simp [Stocks.results, List.map_map, Function.comp_def, Stocks.fetchStockPrice_ticker]

/-! ### Claims -/

/-- C2: for every ticker and every upstream outcome (2xx with valid body,
non-2xx, malformed body, network error, thrown parse error), each client
returns a Result (both clients are total functions of the outcome, so no
exception propagates), and the Result carries exactly one of: payload with
`success = true` (with a non-null numeric price for the stock client) and
no `error`, or `success = false` with a non-null error string and (for the
stock client) a null price — never neither, never both. -/
theorem C2_client_result_invariant (t : String)
    (u : Upstream (Option Stocks.StockBody))
    (v : Upstream (Option Transcripts.TranscriptBody)) :
    ((Stocks.fetchStockPrice t u).success = true ∧
        (∃ p : Int, (Stocks.fetchStockPrice t u).price = some p) ∧
        (Stocks.fetchStockPrice t u).error = none
      ∨ (Stocks.fetchStockPrice t u).success = false ∧
        (Stocks.fetchStockPrice t u).price = none ∧
        (∃ m : String, (Stocks.fetchStockPrice t u).error = some m))
    ∧ ((Transcripts.fetchEarningsTranscript t v).success = true ∧
        (Transcripts.fetchEarningsTranscript t v).error = none
      ∨ (Transcripts.fetchEarningsTranscript t v).success = false ∧
        (∃ m : String, (Transcripts.fetchEarningsTranscript t v).error = some m)) := by
  constructor
  · rcases u with m | ⟨ok, s, st, b⟩
    · right; exact ⟨rfl, rfl, m, rfl⟩
    · cases ok
      · right; exact ⟨rfl, rfl, _, rfl⟩
      · rcases b with m | d
        · right; exact ⟨rfl, rfl, m, rfl⟩
        · rcases d with _ | ⟨⟨p⟩⟩
          · right; exact ⟨rfl, rfl, _, rfl⟩
          · cases p
            · right; exact ⟨rfl, rfl, _, rfl⟩
            · right; exact ⟨rfl, rfl, _, rfl⟩
            · left; exact ⟨rfl, ⟨_, rfl⟩, rfl⟩
  · rcases v with m | ⟨ok, s, st, b⟩
    · right; exact ⟨rfl, m, rfl⟩
    · cases ok
      · right; exact ⟨rfl, _, rfl⟩
      · rcases b with m | d
        · right; exact ⟨rfl, m, rfl⟩
        · rcases d with _ | d
          · right; exact ⟨rfl, _, rfl⟩
          · by_cases ht : truthyOpt d.transcript = true
            · left
              constructor
              · simp [Transcripts.fetchEarningsTranscript, ht]
              · simp [Transcripts.fetchEarningsTranscript, ht]
            · right
              have hts : truthyOpt d.transcript = false := by simpa using ht
              refine ⟨?_, "No transcript data available for " ++ t, ?_⟩
              · simp [Transcripts.fetchEarningsTranscript, Transcripts.tFailResult, hts]
              · simp [Transcripts.fetchEarningsTranscript, Transcripts.tFailResult, hts]

theorem Stocks.handler_get (apiKey : Option String) (now : String)
    (up : String → Upstream (Option Stocks.StockBody))
    (hk : truthyOpt apiKey = true) :
    Stocks.handler "GET" apiKey now up none =
      if (Stocks.successfulResults up).length = 0 then
        ⟨503, .serviceUnavailable "Service unavailable" "Unable to fetch stock data from API"
          ((Stocks.failedResults up).map (fun r => (r.ticker, r.error))), Stocks.tickers⟩
      else
        ⟨200, .okBody now
          ((Stocks.successfulResults up).map (fun r => ⟨r.ticker, r.companyName, r.price⟩))
          ⟨Stocks.tickers.length, (Stocks.successfulResults up).length,
            (Stocks.failedResults up).length⟩
          (if (Stocks.failedResults up).length > 0 then
            some ((Stocks.failedResults up).map
              (fun r => ⟨r.ticker, r.companyName, "Failed to fetch data"⟩))
          else none), Stocks.tickers⟩ := by
  simp [Stocks.handler, hk]

/-- C1: over every vector of per-ticker upstream outcomes, with the API key
configured: if zero fetches succeed the stocks handler responds 503 and the
`details` field has one `{ticker, error}` entry per ticker of the fixed
set; if at least one fetch succeeds it responds 200 with exactly the
successful results as `stocks`, and `warnings` (naming the failed tickers)
is present if and only if at least one fetch failed. -/
theorem C1_stocks_decision_rule (apiKey : Option String) (now : String)
    (up : String → Upstream (Option Stocks.StockBody))
    (hk : truthyOpt apiKey = true) :
    ((Stocks.successfulResults up) = [] →
      (Stocks.handler "GET" apiKey now up none).status = 503 ∧
      (Stocks.handler "GET" apiKey now up none).body.detailsOf =
        some ((Stocks.results up).map (fun r => (r.ticker, r.error))) ∧
      ((Stocks.results up).map (fun r => (r.ticker, r.error))).map Prod.fst = Stocks.tickers)
    ∧ ((Stocks.successfulResults up) ≠ [] →
      (Stocks.handler "GET" apiKey now up none).status = 200 ∧
      (Stocks.handler "GET" apiKey now up none).body.stocksOf =
        some ((Stocks.successfulResults up).map (fun r => ⟨r.ticker, r.companyName, r.price⟩)) ∧
      (Stocks.handler "GET" apiKey now up none).body.warningsOf =
        (if Stocks.failedResults up = [] then none
         else some ((Stocks.failedResults up).map
           (fun r => ⟨r.ticker, r.companyName, "Failed to fetch data"⟩)))) := by
  rw [Stocks.handler_get apiKey now up hk]
  constructor
  · intro h
    have hlen : (Stocks.successfulResults up).length = 0 := by rw [h]; rfl
    have h' : (Stocks.results up).filter (fun r => r.success) = [] := h
    have hfail : Stocks.failedResults up = Stocks.results up := by
      show (Stocks.results up).filter (fun r => !r.success) = Stocks.results up
      exact filter_not_eq_self_of_filter_eq_nil (fun r => r.success) (Stocks.results up) h'
    rw [if_pos hlen]
    refine ⟨rfl, ?_, ?_⟩
    · simp [Stocks.Body.detailsOf, hfail]
    · simp [List.map_map, Function.comp_def, Stocks.results_map_ticker]
  · intro h
    have hlen : ¬(Stocks.successfulResults up).length = 0 := by
      simpa [List.length_eq_zero] using h
    rw [if_neg hlen]
    refine ⟨rfl, rfl, ?_⟩
    by_cases hf : Stocks.failedResults up = []
    · simp [Stocks.Body.warningsOf, hf]
    · have hpos : (Stocks.failedResults up).length > 0 := List.length_pos.mpr hf
      simp [Stocks.Body.warningsOf, hf, hpos]

theorem C1_stocks_decision_rule_witness :
    (Stocks.handler "GET" (some "k") "T" (fun _ => Upstream.netErr "down") none).status = 503 ∧
    (Stocks.handler "GET" (some "k") "T"
      (fun t => if t = "MSFT" then Upstream.http true 200 "OK" (Except.ok (some ⟨NumField.num 5⟩))
                else Upstream.netErr "down") none).status = 200 := by
  constructor
  · exact ((C1_stocks_decision_rule (some "k") "T" _ (by decide)).1 (by decide)).1
  · exact ((C1_stocks_decision_rule (some "k") "T" _ (by decide)).2 (by decide)).1

/-- C3: with the API key configured, in every 200 response of the stocks
handler `metadata.total` equals the size of the fixed ticker set (5),
`metadata.successful + metadata.failed = metadata.total`, and the length
of the `stocks` array equals `metadata.successful`. -/
theorem C3_stocks_metadata (apiKey : Option String) (now : String)
    (up : String → Upstream (Option Stocks.StockBody))
    (hk : truthyOpt apiKey = true)
    (h200 : (Stocks.handler "GET" apiKey now up none).status = 200) :
    (Stocks.handler "GET" apiKey now up none).body.metaOf =
      some ⟨Stocks.tickers.length, (Stocks.successfulResults up).length,
        (Stocks.failedResults up).length⟩ ∧
    Stocks.tickers.length = 5 ∧
    (Stocks.successfulResults up).length + (Stocks.failedResults up).length
      = Stocks.tickers.length ∧
    (Stocks.handler "GET" apiKey now up none).body.stocksOf =
      some ((Stocks.successfulResults up).map (fun r => ⟨r.ticker, r.companyName, r.price⟩)) ∧
    ((Stocks.successfulResults up).map
        (fun r => (⟨r.ticker, r.companyName, r.price⟩ : Stocks.StockEntry))).length
      = (Stocks.successfulResults up).length := by
  rw [Stocks.handler_get apiKey now up hk] at h200 ⊢
  by_cases hz : (Stocks.successfulResults up).length = 0
  · rw [if_pos hz] at h200
    simp at h200
  · rw [if_neg hz]
    have hpart : (Stocks.successfulResults up).length + (Stocks.failedResults up).length
        = (Stocks.results up).length := by
      show ((Stocks.results up).filter (fun r => r.success)).length
          + ((Stocks.results up).filter (fun r => !r.success)).length
          = (Stocks.results up).length
      exact length_filter_add_length_filter_not _ _
    have hlen : (Stocks.results up).length = Stocks.tickers.length := by
      simp [Stocks.results]
    exact ⟨rfl, rfl, by rw [hpart, hlen], rfl, by simp⟩

theorem C3_stocks_metadata_witness :
    (Stocks.handler "GET" (some "k") "T"
      (fun _ => Upstream.http true 200 "OK" (Except.ok (some ⟨NumField.num 1⟩)))
      none).body.metaOf = some ⟨5, 5, 0⟩ := by
  have h := C3_stocks_metadata (some "k") "T"
    (fun _ => Upstream.http true 200 "OK" (Except.ok (some ⟨NumField.num 1⟩)))
    (by decide) (by decide)
  exact h.1.trans (by decide)

/-- C9 (implicit): the stocks handler preserves the fixed ticker order —
the tickers of the successful results and of the failed results are
in-order subsequences of AAPL, MSFT, GOOGL, META, AMZN, the `stocks`
array of a 200 response is exactly the successful subsequence (and the
`warnings` array, when present, exactly the failed one), and the
`details` array of a 503 response is exactly the failed subsequence. -/
theorem C9_stocks_order (apiKey : Option String) (now : String)
    (up : String → Upstream (Option Stocks.StockBody))
    (hk : truthyOpt apiKey = true) :
    (((Stocks.successfulResults up).map (fun r => r.ticker)).Sublist Stocks.tickers ∧
     ((Stocks.failedResults up).map (fun r => r.ticker)).Sublist Stocks.tickers)
    ∧ ((Stocks.handler "GET" apiKey now up none).status = 200 →
        (Stocks.handler "GET" apiKey now up none).body.stocksOf =
          some ((Stocks.successfulResults up).map (fun r => ⟨r.ticker, r.companyName, r.price⟩)) ∧
        ((Stocks.handler "GET" apiKey now up none).body.warningsOf = none ∨
         (Stocks.handler "GET" apiKey now up none).body.warningsOf =
           some ((Stocks.failedResults up).map
             (fun r => ⟨r.ticker, r.companyName, "Failed to fetch data"⟩))))
    ∧ ((Stocks.handler "GET" apiKey now up none).status = 503 →
        (Stocks.handler "GET" apiKey now up none).body.detailsOf =
          some ((Stocks.failedResults up).map (fun r => (r.ticker, r.error)))) := by
  refine ⟨⟨?_, ?_⟩, ?_, ?_⟩
  · have hs := (List.filter_sublist (p := fun r => r.success) (Stocks.results up)).map
      (fun r => r.ticker)
    rw [Stocks.results_map_ticker] at hs
    exact hs
  · have hs := (List.filter_sublist (p := fun r => !r.success) (Stocks.results up)).map
      (fun r => r.ticker)
    rw [Stocks.results_map_ticker] at hs
    exact hs
  · rw [Stocks.handler_get apiKey now up hk]
    by_cases hz : (Stocks.successfulResults up).length = 0
    · rw [if_pos hz]
      intro h
      simp at h
    · rw [if_neg hz]
      intro _
      refine ⟨rfl, ?_⟩
      by_cases hf : (Stocks.failedResults up).length > 0
      · right; simp [Stocks.Body.warningsOf, hf]
      · left; simp [Stocks.Body.warningsOf, hf]
  · rw [Stocks.handler_get apiKey now up hk]
    by_cases hz : (Stocks.successfulResults up).length = 0
    · rw [if_pos hz]
      intro _
      rfl
    · rw [if_neg hz]
      intro h
      simp at h

theorem C9_stocks_order_witness :
    ((Stocks.successfulResults (fun _ => Upstream.netErr "x")).map
      (fun r => r.ticker)).Sublist Stocks.tickers ∧
    (Stocks.handler "GET" (some "k") "T" (fun _ => Upstream.netErr "x") none).body.detailsOf =
      some ((Stocks.failedResults (fun _ => Upstream.netErr "x")).map
        (fun r => (r.ticker, r.error))) := by
  have h := C9_stocks_order (some "k") "T" (fun _ => Upstream.netErr "x") (by decide)
  exact ⟨h.1.1, h.2.2 (by decide)⟩

theorem C4_counterexample_post_is_405 :
    ("POST" : String) ≠ "OPTIONS" ∧
    (Stocks.handler "POST" none "T" (fun _ => Upstream.netErr "e") none).status = 405 ∧
    ¬(Stocks.handler "POST" none "T" (fun _ => Upstream.netErr "e") none).status = 500 ∧
    (Transcripts.handler "POST" none none (fun _ => Upstream.netErr "e") none).status = 405 ∧
    ¬(Transcripts.handler "POST" none none (fun _ => Upstream.netErr "e") none).status = 500 := by
  decide

/-- C4 (amended): for both handlers, if the API key configuration is absent
(or empty), then every GET request is answered with HTTP 500 and the
configuration-error payload, and the upstream client function is never
invoked.  (A non-GET, non-OPTIONS request is rejected with 405 by the
method check, which runs before the configuration check, so it also never
reaches the upstream — but its status is 405, not 500.) -/
theorem C4_missing_key_amended (apiKey : Option String) (now : String)
    (tickerQ : Option String)
    (up : String → Upstream (Option Stocks.StockBody))
    (upT : String → Upstream (Option Transcripts.TranscriptBody))
    (hk : truthyOpt apiKey = false) :
    Stocks.handler "GET" apiKey now up none =
      ⟨500, .configError "Server configuration error"
        "API key not configured. Please set API_KEY environment variable.", []⟩ ∧
    Transcripts.handler "GET" apiKey tickerQ upT none =
      ⟨500, .configError "Server configuration error"
        "API key not configured. Please set API_KEY environment variable.", []⟩ := by
  constructor <;> simp [Stocks.handler, Transcripts.handler, hk]

theorem C4_missing_key_amended_witness :
    Stocks.handler "GET" none "T" (fun _ => Upstream.netErr "e") none =
      ⟨500, .configError "Server configuration error"
        "API key not configured. Please set API_KEY environment variable.", []⟩ ∧
    Transcripts.handler "GET" none (some "MSFT") (fun _ => Upstream.netErr "e") none =
      ⟨500, .configError "Server configuration error"
        "API key not configured. Please set API_KEY environment variable.", []⟩ :=
  C4_missing_key_amended none "T" (some "MSFT")
    (fun _ => Upstream.netErr "e") (fun _ => Upstream.netErr "e") (by decide)

theorem C5_counterexample_detail_in_body :
    (Stocks.handler "GET" (some "k") "T" (fun _ => Upstream.netErr "e") (some "boom")).status
      = 500 ∧
    (Stocks.handler "GET" (some "k") "T" (fun _ => Upstream.netErr "e") (some "boom")).body =
      Stocks.Body.internalError "Internal server error"
        "An unexpected error occurred while fetching stock data" "boom" ∧
    (Transcripts.handler "GET" (some "k") (some "MSFT")
        (fun _ => Upstream.netErr "e") (some "boom")).body =
      Transcripts.Body.internalError "Internal server error"
        "An unexpected error occurred while fetching transcript data" "boom" :=
  ⟨rfl, rfl, rfl⟩

/-- C5 (amended): for both handlers, any unexpected exception raised inside
the handler's `try` body is caught and answered with HTTP 500 whose payload
carries the generic `Internal server error` error, a generic message, and a
`details` field holding the exception's message — so the exception never
propagates, but its message is exposed in the response body (in addition to
being logged server-side). -/
theorem C5_unexpected_exception_amended (apiKey : Option String) (now m : String)
    (tickerQ : Option String)
    (up : String → Upstream (Option Stocks.StockBody))
    (upT : String → Upstream (Option Transcripts.TranscriptBody)) :
    Stocks.handler "GET" apiKey now up (some m) =
      ⟨500, .internalError "Internal server error"
        "An unexpected error occurred while fetching stock data" m, []⟩ ∧
    Transcripts.handler "GET" apiKey tickerQ upT (some m) =
      ⟨500, .internalError "Internal server error"
        "An unexpected error occurred while fetching transcript data" m, []⟩ :=
  ⟨rfl, rfl⟩

theorem Transcripts.companyOf_truthy_cases {s : String}
    (h : truthyOpt (Transcripts.companyOf s) = true) :
    s = "AAPL" ∨ s = "MSFT" ∨ s = "GOOGL" ∨ s = "META" ∨ s = "AMZN" := by
  by_cases h1 : "AAPL" = s
  · exact Or.inl h1.symm
  by_cases h2 : "MSFT" = s
  · exact Or.inr (Or.inl h2.symm)
  by_cases h3 : "GOOGL" = s
  · exact Or.inr (Or.inr (Or.inl h3.symm))
  by_cases h4 : "META" = s
  · exact Or.inr (Or.inr (Or.inr (Or.inl h4.symm)))
  by_cases h5 : "AMZN" = s
  · exact Or.inr (Or.inr (Or.inr (Or.inr h5.symm)))
  exfalso
  simp [Transcripts.companyOf, Transcripts.COMPANIES, List.find?, truthyOpt,
    h1, h2, h3, h4, h5] at h

theorem Transcripts.handler_query_congr (method : String) (apiKey : Option String)
    (q1 q2 : Option String) (up : String → Upstream (Option Transcripts.TranscriptBody))
    (exn : Option String)
    (h1 : truthyOpt q1 = true) (h2 : truthyOpt q2 = true)
    (he : jsToUpperCase (q1.getD "") = jsToUpperCase (q2.getD ""))
    (hc : truthyOpt (Transcripts.companyOf (jsToUpperCase (q1.getD ""))) = true) :
    Transcripts.handler method apiKey q1 up exn =
      Transcripts.handler method apiKey q2 up exn := by
  by_cases ho : method = "OPTIONS"
  · simp [Transcripts.handler, ho]
  by_cases hg : method = "GET"
  · subst hg
    cases exn with
    | some m => simp [Transcripts.handler, ho]
    | none =>
      by_cases hk : truthyOpt apiKey = true
      · have hc2 : truthyOpt (Transcripts.companyOf (jsToUpperCase (q2.getD ""))) = true := by
          rw [← he]; exact hc
        simp [Transcripts.handler, ho, hk, h1, h2, hc, hc2, he]
      · have hk' : truthyOpt apiKey = false := by simpa using hk
        simp [Transcripts.handler, ho, hk']
  · simp [Transcripts.handler, ho, hg]

/-- C6: for the transcripts handler with the API key configured: a GET
request with no `ticker` query parameter is answered 200 with the discovery
payload carrying the full allow-list; a GET request whose (nonempty)
`ticker` does not match the allow-list case-insensitively is answered 400
with a message naming the supplied value and with the allow-list; in both
cases the upstream client is never invoked. -/
theorem C6_transcripts_validation (apiKey : Option String)
    (up : String → Upstream (Option Transcripts.TranscriptBody))
    (hk : truthyOpt apiKey = true) :
    Transcripts.handler "GET" apiKey none up none =
      ⟨200, .discovery "Provide a ticker parameter to fetch transcript"
        Transcripts.tickers "/api/transcripts?ticker=MSFT", []⟩
    ∧ (∀ t : String, t ≠ "" →
        truthyOpt (Transcripts.companyOf (jsToUpperCase t)) = false →
        Transcripts.handler "GET" apiKey (some t) up none =
          ⟨400, .invalidTicker "Invalid ticker"
            ("Ticker '" ++ t ++ "' is not supported") Transcripts.tickers, []⟩) := by
  constructor
  · simp [Transcripts.handler, hk, truthyOpt_none]
  · intro t ht hc
    have ht' : truthyOpt (some t) = true := truthyOpt_some_of_ne ht
    simp [Transcripts.handler, hk, ht', hc]

theorem C6_transcripts_validation_witness :
    Transcripts.handler "GET" (some "k") none (fun _ => Upstream.netErr "e") none =
      ⟨200, .discovery "Provide a ticker parameter to fetch transcript"
        Transcripts.tickers "/api/transcripts?ticker=MSFT", []⟩ ∧
    Transcripts.handler "GET" (some "k") (some "xyz") (fun _ => Upstream.netErr "e") none =
      ⟨400, .invalidTicker "Invalid ticker" "Ticker 'xyz' is not supported"
        Transcripts.tickers, []⟩ := by
  have h := C6_transcripts_validation (some "k") (fun _ => Upstream.netErr "e") (by decide)
  exact ⟨h.1, h.2 "xyz" (by decide) (by decide)⟩

/-- C7: for every ticker string whose uppercasing is in the allow-list, the
transcripts handler behaves exactly as on the already-uppercase form, given
identical upstream behaviour: the two invocations produce equal outcomes
(status, body and upstream calls). -/
theorem C7_ticker_case_insensitive (method : String) (apiKey : Option String)
    (t : String) (up : String → Upstream (Option Transcripts.TranscriptBody))
    (exn : Option String)
    (h : truthyOpt (Transcripts.companyOf (jsToUpperCase t)) = true) :
    Transcripts.handler method apiKey (some t) up exn =
      Transcripts.handler method apiKey (some (jsToUpperCase t)) up exn := by
  have hne : t ≠ "" := by
    intro he
    rw [he] at h
    exact absurd h (by decide)
  rcases Transcripts.companyOf_truthy_cases h with e | e | e | e | e <;>
  · refine Transcripts.handler_query_congr method apiKey (some t) (some (jsToUpperCase t))
      up exn ?_ ?_ ?_ ?_
    · exact truthyOpt_some_of_ne hne
    · rw [e]; decide
    · show jsToUpperCase t = jsToUpperCase (jsToUpperCase t)
      rw [e]
      decide
    · exact h

theorem C7_ticker_case_insensitive_witness :
    Transcripts.handler "GET" (some "k") (some "msft") (fun _ => Upstream.netErr "e") none =
      Transcripts.handler "GET" (some "k") (some "MSFT")
        (fun _ => Upstream.netErr "e") none := by
  have h := C7_ticker_case_insensitive "GET" (some "k") "msft"
    (fun _ => Upstream.netErr "e") none (by decide)
  have he : jsToUpperCase "msft" = "MSFT" := by decide
  rw [he] at h
  exact h

/-- C10 (implicit): a GET to the transcripts handler with an empty-string
`ticker` parameter is treated exactly like a missing ticker: it is answered
with the HTTP 200 discovery payload, not the 400 invalid-ticker response. -/
theorem C10_empty_ticker_is_discovery (apiKey : Option String)
    (up : String → Upstream (Option Transcripts.TranscriptBody))
    (hk : truthyOpt apiKey = true) :
    Transcripts.handler "GET" apiKey (some "") up none =
      Transcripts.handler "GET" apiKey none up none ∧
    (Transcripts.handler "GET" apiKey (some "") up none).status = 200 ∧
    (Transcripts.handler "GET" apiKey (some "") up none).body =
      .discovery "Provide a ticker parameter to fetch transcript"
        Transcripts.tickers "/api/transcripts?ticker=MSFT" := by
  refine ⟨?_, ?_, ?_⟩ <;>
    simp [Transcripts.handler, hk, truthyOpt_none, truthyOpt_some_empty]

theorem C10_empty_ticker_is_discovery_witness :
    Transcripts.handler "GET" (some "k") (some "") (fun _ => Upstream.netErr "e") none =
      Transcripts.handler "GET" (some "k") none (fun _ => Upstream.netErr "e") none ∧
    (Transcripts.handler "GET" (some "k") (some "") (fun _ => Upstream.netErr "e") none).status
      = 200 ∧
    (Transcripts.handler "GET" (some "k") (some "") (fun _ => Upstream.netErr "e") none).body =
      .discovery "Provide a ticker parameter to fetch transcript"
        Transcripts.tickers "/api/transcripts?ticker=MSFT" :=
  C10_empty_ticker_is_discovery (some "k") (fun _ => Upstream.netErr "e") (by decide)

theorem C8_counterexample_empty_transcript :
    (Transcripts.fetchEarningsTranscript "MSFT"
      (Upstream.http true 200 "OK"
        (Except.ok (some ⟨none, none, none, none, none, some "", none, none⟩)))).success
      = false ∧
    (⟨none, none, none, none, none, some "", none, none⟩ :
        Transcripts.TranscriptBody).transcript ≠ none := by
  decide

/-- C8 (amended): `fetchEarningsTranscript` produces a failure Result
exactly when the upstream response is non-2xx, or its parsed body is null,
or its `transcript` field is absent or empty (JavaScript-falsy); on success
the Result carries the transcript metadata fields copied from the body,
with the list-typed fields `participants` and `transcriptSplit` defaulted
to empty sequences when absent upstream. -/
theorem C8_transcript_contract_amended (t : String) (ok : Bool) (status : Nat)
    (st : String) (data : Option Transcripts.TranscriptBody) :
    ((Transcripts.fetchEarningsTranscript t (.http ok status st (.ok data))).success = false ↔
      (ok = false ∨ data = none ∨
        ∃ d, data = some d ∧ truthyOpt d.transcript = false))
    ∧ (∀ d : Transcripts.TranscriptBody, data = some d →
        (Transcripts.fetchEarningsTranscript t (.http ok status st (.ok data))).success = true →
        Transcripts.fetchEarningsTranscript t (.http ok status st (.ok data)) =
          { ticker := t, companyName := Transcripts.companyOf t,
            date := d.date, timestamp := d.timestamp, year := d.year,
            quarter := d.quarter, earningsTiming := d.earnings_timing,
            transcript := d.transcript,
            participants := some (d.participants.getD []),
            transcriptSplit := some (d.transcript_split.getD []),
            success := true, error := none }) := by
  constructor
  · cases ok
    · simp [Transcripts.fetchEarningsTranscript, Transcripts.tFailResult]
    · rcases data with _ | d
      · simp [Transcripts.fetchEarningsTranscript, Transcripts.tFailResult]
      · by_cases ht : truthyOpt d.transcript = true
        · simp [Transcripts.fetchEarningsTranscript, ht]
        · have ht' : truthyOpt d.transcript = false := by simpa using ht
          simp [Transcripts.fetchEarningsTranscript, Transcripts.tFailResult, ht']
  · intro d hd hs
    subst hd
    cases ok
    · simp [Transcripts.fetchEarningsTranscript, Transcripts.tFailResult] at hs
    · by_cases ht : truthyOpt d.transcript = true
      · simp [Transcripts.fetchEarningsTranscript, ht]
      · have ht' : truthyOpt d.transcript = false := by simpa using ht
        simp [Transcripts.fetchEarningsTranscript, Transcripts.tFailResult, ht'] at hs

theorem C8_transcript_contract_amended_witness :
    Transcripts.fetchEarningsTranscript "MSFT"
      (Upstream.http true 200 "OK"
        (Except.ok (some ⟨some "2025-01-01", some 1700000000, some 2025, some 1,
          some "post market", some "hello", none, none⟩))) =
      { ticker := "MSFT", companyName := Transcripts.companyOf "MSFT",
        date := some "2025-01-01", timestamp := some 1700000000, year := some 2025,
        quarter := some 1, earningsTiming := some "post market",
        transcript := some "hello", participants := some [],
        transcriptSplit := some [], success := true, error := none } :=
  (C8_transcript_contract_amended "MSFT" true 200 "OK"
      (some ⟨some "2025-01-01", some 1700000000, some 2025, some 1,
        some "post market", some "hello", none, none⟩)).2
    ⟨some "2025-01-01", some 1700000000, some 2025, some 1,
      some "post market", some "hello", none, none⟩ rfl (by decide)
